import Mathlib

/-!
Shallow embedding of the cancellable-generation session protocol of
`src/agents/sfc_wizard_agent/sfc_wizard/ui.py` (class `ChatUI`,
class `StreamingOutputCapture`, and the nested `StoppableAgent` of
`_run_agent_with_stop_check`), together with theorems settling the
specification's claims about it.

Modelling conventions:
  * Python strings are Lean `String`s; `str.strip()` is `pyStrip`,
    `str.lower()` is `pyLower` (structural so the kernel can evaluate
    them), `len` is `String.length`.
  * Wall-clock instants are `Nat`s.  For `StreamingOutputCapture` the unit
    is milliseconds (the emit interval 0.1 s becomes 100); for
    `StoppableAgent.run_with_timeout` the unit is seconds (timeout
    default 300).  Python's `a - b` on a monotone clock is `Nat` truncated
    subtraction.
  * The shared mutable flags read by the polling loop (`is_alive`,
    `self.completed`, `self.stop_event.is_set()`, `time.time()`) are given
    per-iteration as a `Tick`; a run of the loop is a list of ticks.
  * `socketio.emit` calls become constructors of `Event`, collected in
    emission order.
  * A `threading.Event` is its `is_set` value, a `Bool`; the per-session
    entry of the `self.stop_events` dict is an `Option`.
-/

namespace SfcWizard

/-- Python `str.strip()` with no argument: the string with leading and
trailing whitespace removed, modelled by structural recursion on the
character list so that concrete instances evaluate in the kernel. -/
def pyStrip (s : String) : String :=
  String.mk (((s.data.dropWhile Char.isWhitespace).reverse.dropWhile Char.isWhitespace).reverse)

/-- Python `str.lower()` on the ASCII range (every string it is applied to
in `ui.py` is compared against ASCII literals), modelled by a structural
map over the character list. -/
def pyLower (s : String) : String :=
  String.mk (s.data.map Char.toLower)

/-- A conversation entry as built in `ui.py`: a dict with keys `role`,
`content` and `timestamp`. -/
structure Msg where
  role : String
  content : String
  timestamp : Nat
deriving DecidableEq, Repr

/-- The socket events the controller emits to the client, in the order the
source emits them. -/
inductive Event where
  | messageReceived (m : Msg)
  | agentResponse (m : Msg)
  | agentTyping (b : Bool)
  | agentStreamingStart
  | agentStreaming (content : String)
  | agentStreamingEnd
  | generationStopped (message : String)
  | generationStopAcknowledged
  | generationStopError (message : String)
  | conversationCleared (messages : List Msg)
deriving DecidableEq, Repr

/-- `StreamingOutputCapture.emit_interval` (0.1 s), in milliseconds. -/
def emit_interval : Nat := 100

/-- State of a `StreamingOutputCapture` instance.  `stop_event` is `none`
when the constructor got no stop event, otherwise `some` of the event's
`is_set` value at the moment of the call being modelled.  `original_out`
is the text written so far to the captured original stream. -/
structure Capture where
  accumulated_output : String
  last_emit_time : Nat
  stop_event : Option Bool
  original_out : String
deriving DecidableEq, Repr

/-- `StreamingOutputCapture.emit_partial_response` (ui.py lines 62-75):
emits the accumulated output as one `agent_streaming` event and clears the
buffer, but only when the buffer strips non-empty and the stop event is
absent or unset; otherwise it does nothing (in particular the buffer is
left as it is). -/
def Capture.emit_partial_response (c : Capture) : Capture × List Event :=
  if pyStrip c.accumulated_output ≠ "" ∧ (c.stop_event = none ∨ c.stop_event = some false) then
    ({ c with accumulated_output := "" }, [Event.agentStreaming c.accumulated_output])
  else
    (c, [])

/-- `StreamingOutputCapture.write` (ui.py lines 45-60): non-whitespace text
is accumulated and flushed to the client when 100 ms have passed since the
last emit or the buffer exceeds 100 characters; the text is always also
written to the original stream, and the text's length is returned. -/
def Capture.write (c : Capture) (text : String) (now : Nat) : Capture × List Event × Nat :=
  let step :=
    if pyStrip text ≠ "" then
      let c1 := { c with accumulated_output := c.accumulated_output ++ text }
      if emit_interval ≤ now - c1.last_emit_time ∨ 100 < c1.accumulated_output.length then
        let e := c1.emit_partial_response
        ({ e.1 with last_emit_time := now }, e.2)
      else
        (c1, ([] : List Event))
    else
      (c, ([] : List Event))
  ({ step.1 with original_out := step.1.original_out ++ text }, step.2, text.length)

/-- `StreamingOutputCapture.flush` (ui.py lines 77-81): calls
`emit_partial_response` when the buffer strips non-empty, then flushes the
original stream (a no-op on the model's state). -/
def Capture.flush (c : Capture) : Capture × List Event :=
  if pyStrip c.accumulated_output ≠ "" then
    c.emit_partial_response
  else
    (c, [])

/-- Python truthiness of an optional string slot (`if self.error:`,
`elif self.result:`): `None` and the empty string are falsy. -/
def pyTruthy : Option String → Bool
  | none => false
  | some s => s ≠ ""

/-- The shared slots `StoppableAgent.run_in_thread` writes and
`run_with_timeout` reads: `self.result`, `self.error`, `self.completed`. -/
structure AgentSlot where
  result : Option String
  error : Option String
  completed : Bool
deriving DecidableEq, Repr

/-- `StoppableAgent.run_in_thread` (ui.py lines 546-609), abstracting the
opaque agent call as an `Except`: on normal return the response is stored
in `result` unless the stop event is set at the check, in which case the
fixed stopped message is stored; on a raise the error text is stored in
`error` unless the stop event is set, again storing the stopped message;
`completed` is always set in the `finally`. -/
def run_in_thread (agentCall : Except String String) (stopAtCheck : Bool) : AgentSlot :=
  match agentCall with
  | .ok response =>
      if !stopAtCheck then
        { result := some response, error := none, completed := true }
      else
        { result := some "Generation stopped by user.", error := none, completed := true }
  | .error e =>
      if !stopAtCheck then
        { result := none, error := some e, completed := true }
      else
        { result := some "Generation stopped by user.", error := none, completed := true }

/-- One iteration's worth of observations of the shared state by the
polling loop of `run_with_timeout`: `alive` and `completed` as read by the
`while` guard, `stopSet` as read by `self.stop_event.is_set()`, `now` as
read by `time.time()` at the deadline check, and `aliveAfterGrace` as read
by the `is_alive()` re-check after the 1 s grace sleep of the stop
branch. -/
structure Tick where
  alive : Bool
  completed : Bool
  stopSet : Bool
  now : Nat
  aliveAfterGrace : Bool
deriving DecidableEq, Repr

/-- How the polling loop of `run_with_timeout` came to an end. -/
inductive LoopExit where
  | stopped
  | timedOut (now : Nat)
  | finished
deriving DecidableEq, Repr

/-- The polling loop of `StoppableAgent.run_with_timeout` (ui.py lines
622-639): while the guard `agent_thread.is_alive() and not self.completed`
holds, check the stop event (returning the stopped outcome when the thread
is still alive after the grace sleep, breaking out otherwise), then the
deadline (`time.time() - start_time > timeout`), then sleep 100 ms.  A
guard failure falls through to the result-returning code (`finished`).
`none` means the supplied trace ended with the loop still running. -/
def pollLoop (start_time timeout : Nat) : List Tick → Option LoopExit
  | [] => none
  | t :: rest =>
      if t.alive && !t.completed then
        if t.stopSet then
          if t.aliveAfterGrace then some LoopExit.stopped
          else some LoopExit.finished
        else if timeout < t.now - start_time then
          some (LoopExit.timedOut t.now)
        else
          pollLoop start_time timeout rest
      else
        some LoopExit.finished

/-- The default of the `timeout` parameter of `run_with_timeout` (300 s),
used by `_run_agent_with_stop_check`, which passes no timeout. -/
def default_timeout : Nat := 300

/-- The code after the polling loop of `run_with_timeout` (ui.py lines
641-652): a truthy `self.error` yields the prefixed error string, else a
truthy `self.result` is returned (the results stored are plain strings, so
the `content`/`text` attribute probes fall through to `str`), else the
fixed no-response string. -/
def returnResult (slot : AgentSlot) : String :=
  if pyTruthy slot.error then "Error: " ++ slot.error.getD ""
  else if pyTruthy slot.result then slot.result.getD ""
  else "No response generated."

/-- `StoppableAgent.run_with_timeout` (ui.py lines 611-652) over a trace of
tick observations, with `finalSlot` the shared slots' values when the loop
exits: the stop branch returns the fixed stopped message, the deadline
branch the interpolated timeout message, and a guard failure (or a break)
the post-loop result.  `none` means the trace ended mid-loop. -/
def run_with_timeout (start_time timeout : Nat) (ticks : List Tick)
    (finalSlot : AgentSlot) : Option String :=
  match pollLoop start_time timeout ticks with
  | none => none
  | some LoopExit.stopped => some "Generation stopped by user."
  | some (LoopExit.timedOut _) =>
      some ("Generation timed out after " ++ toString timeout ++ " seconds.")
  | some LoopExit.finished => some (returnResult finalSlot)

/-- The fixed farewell text of the exit-command branch of `handle_message`
(ui.py line 320). -/
def goodbye_content : String :=
  "🏭 Thank you for using the SFC Wizard!\nMay your industrial data flow smoothly to the cloud! ☁️"

/-- `ChatUI._get_welcome_message` (ui.py lines 658-684). -/
def welcome_message : String :=
  "🏭 **AWS SHOP FLOOR CONNECTIVITY (SFC) WIZARD**\n\nSpecialized assistant for industrial data connectivity to AWS\n\n💾 **Session Persistence**: Your conversation is automatically saved and will persist for 5 minutes even if you refresh the page or close the browser tab.\n\n🎯 **I can help you with:**\n• 🔍 Debug existing SFC configurations\n• 🛠️ Create new SFC configurations  \n• 💾 Save configurations to JSON files\n• 📂 Load configurations from JSON files\n• ▶️ Run configurations in local test environments\n• 🧪 Test configurations against environments\n• 🏗️ Define required deployment environments\n• 📚 Explain SFC concepts and components\n• 📊 Visualize data from configurations with FILE-TARGET\n• 🚀 Type 'example' to run a sample configuration instantly\n\n📋 **Supported Protocols:**\nOPCUA | MODBUS | S7 | MQTT | HTTP | and more...\n\n☁️ **Supported AWS Targets:**\nAWS-S3 | AWS-IOT-CORE | AWS-TIMESTREAM | DEBUG | and more...\n\nWhat would you like to do today?"

/-- What `handle_message` (ui.py lines 276-468) leaves behind for its
session: the conversation, the session's `stop_events` entry, the events
emitted synchronously, and whether a background worker thread was
spawned. -/
structure HandleMsgResult where
  conv : List Msg
  slot : Option Bool
  events : List Event
  spawned : Bool
deriving DecidableEq, Repr

/-- The synchronous part of `handle_message` (ui.py lines 276-468) for one
session, given the session's conversation and its `stop_events` entry: an
empty (after stripping) message returns silently; otherwise the user
message is appended and echoed; a sentinel command
(`lower() in ["exit", "quit", "bye"]`) appends and emits the fixed
farewell and returns without creating a stop event or spawning a worker;
otherwise a fresh unset stop event is registered for the session and the
background worker is spawned.  The agent-ready guard and session-id
generation are identity on this state and are omitted. -/
def handle_message (conv : List Msg) (slot : Option Bool) (raw : String) (ts : Nat) :
    HandleMsgResult :=
  let user_message := pyStrip raw
  if user_message = "" then
    { conv := conv, slot := slot, events := [], spawned := false }
  else
    let user_msg : Msg := { role := "user", content := user_message, timestamp := ts }
    let conv1 := conv ++ [user_msg]
    if pyLower user_message = "exit" ∨ pyLower user_message = "quit" ∨
        pyLower user_message = "bye" then
      let goodbye_msg : Msg := { role := "assistant", content := goodbye_content, timestamp := ts }
      { conv := conv1 ++ [goodbye_msg],
        slot := slot,
        events := [Event.messageReceived user_msg, Event.agentResponse goodbye_msg],
        spawned := false }
    else
      { conv := conv1,
        slot := some false,
        events := [Event.messageReceived user_msg],
        spawned := true }

/-- `handle_stop_generation` (ui.py lines 470-487) for one session: when
the session has a `stop_events` entry, its event is set and the stop is
acknowledged; otherwise nothing is set and a stop error is emitted. -/
def handle_stop_generation (slot : Option Bool) : Option Bool × List Event :=
  match slot with
  | some _ => (some true, [Event.generationStopAcknowledged])
  | none => (none, [Event.generationStopError "No active generation to stop."])

/-- `handle_clear_conversation` (ui.py lines 489-531) for one session:
the conversation is reset to empty and re-seeded with the fixed welcome
message, and a `conversation_cleared` event carrying the new conversation
is emitted.  The agent reinitialisation touches no session state. -/
def handle_clear_conversation (conv : List Msg) (ts : Nat) : List Msg × List Event :=
  let conv1 : List Msg := []
  let conv2 := conv1 ++ [{ role := "assistant", content := welcome_message, timestamp := ts }]
  (conv2, [Event.conversationCleared conv2])

/-- The session-tracking cleanup of the `finally` block of
`process_agent_response` (ui.py lines 452-457): the session's
`stop_events` entry is deleted whenever one is present
(`if session_id in self.stop_events: del self.stop_events[session_id]`).
`own_token` is the identity of the stop event the finishing generation
itself registered; the source never consults it. -/
def cleanup_session_tracking (stop_events_entry : Option Nat) (own_token : Nat) : Option Nat :=
  if stop_events_entry.isSome then none else stop_events_entry

/-- What `_run_agent_with_stop_check` did from `process_agent_response`'s
point of view: either it returned a response string, or an exception was
raised in the body of the outer `try` (carrying `str(e)`). -/
inductive RunOutcome where
  | ok (response : String)
  | raised (e : String)
deriving DecidableEq, Repr

/-- The observations one execution of the worker closure
`process_agent_response` makes of shared state, in program order:
`preStart` is `stop_event.is_set()` at line 365, `run` the outcome of the
agent call region, `afterRun` the re-check at line 379, `beforeAppend` the
check at line 405, `exceptStop` the check at line 437 of the exception
handler, `cap` the streaming capture's state when `flush` is called, and
`ts` the timestamp of any message appended. -/
structure RunCtx where
  preStart : Bool
  run : RunOutcome
  afterRun : Bool
  beforeAppend : Bool
  exceptStop : Bool
  cap : Capture
  ts : Nat
deriving Repr

/-- The worker closure `process_agent_response` (ui.py lines 339-460) for
one session: returns the session's conversation after the turn and the
events emitted, in order.  The stopped-before-start check, the agent run,
the stopped re-check, the flush, the conditional append, the exception
handler and the `finally` typing-off follow the source line by line; the
`visualize` sleep and the stdout redirection bookkeeping have no effect on
this state. -/
def process_agent_response (ctx : RunCtx) (conv : List Msg) : List Msg × List Event :=
  let base : List Event := [Event.agentTyping true, Event.agentStreamingStart]
  if ctx.preStart then
    (conv, base ++ [Event.generationStopped "Generation was stopped before starting.",
                    Event.agentTyping false])
  else
    match ctx.run with
    | RunOutcome.raised e =>
        let fl := ctx.cap.flush
        if ctx.exceptStop then
          (conv, base ++ fl.2 ++ [Event.agentStreamingEnd,
                                  Event.generationStopped "Generation was stopped by user.",
                                  Event.agentTyping false])
        else
          let error_msg : Msg :=
            { role := "assistant",
              content := "❌ Error processing request: " ++ e ++
                "\nPlease try rephrasing your question or check your configuration.",
              timestamp := ctx.ts }
          (conv ++ [error_msg],
           base ++ fl.2 ++ [Event.agentStreamingEnd, Event.agentResponse error_msg,
                            Event.agentTyping false])
    | RunOutcome.ok response =>
        if ctx.afterRun then
          (conv, base ++ [Event.generationStopped "Generation was stopped by user.",
                          Event.agentTyping false])
        else
          let fl := ctx.cap.flush
          if ctx.beforeAppend then
            (conv, base ++ fl.2 ++ [Event.agentTyping false])
          else
            let agent_msg : Msg :=
              { role := "assistant", content := response, timestamp := ctx.ts }
            (conv ++ [agent_msg],
             base ++ fl.2 ++ [Event.agentStreamingEnd, Event.agentTyping false])

/-- Whether an event is an `agent_response` emission (a chat-style
message, as opposed to a streaming or status event). -/
def isAgentResponseEvent : Event → Bool
  | Event.agentResponse _ => true
  | _ => false

/-- Whether an event is a `generation_stopped` notification. -/
def isGenerationStoppedEvent : Event → Bool
  | Event.generationStopped _ => true
  | _ => false

/-!  Theorems.  Each claim of the specification gets one theorem below,
with a closed counterexample where the claim fails on the source and a
closed witness instantiating every theorem that carries hypotheses. -/

/-- A flush emits at most a streaming event, never a chat-style
`agent_response`. -/
theorem flush_no_agentResponse (c : Capture) :
    (Capture.flush c).2.any isAgentResponseEvent = false := by
  unfold Capture.flush Capture.emit_partial_response
  split_ifs <;> simp [isAgentResponseEvent]

/-- A flush never emits a `generation_stopped` notification. -/
theorem flush_no_generationStopped (c : Capture) :
    (Capture.flush c).2.any isGenerationStoppedEvent = false := by
  unfold Capture.flush Capture.emit_partial_response
  split_ifs <;> simp [isGenerationStoppedEvent]

/-- C8: a message whose stripped text lowercases to one of `exit`, `quit`,
`bye` makes `handle_message` append exactly the user message and the fixed
farewell to the transcript, emit the echo and the farewell, register no
stop event (the session's `stop_events` entry is untouched) and spawn no
worker thread — the agent is never invoked. -/
theorem handle_message_sentinel_shortcircuits (conv : List Msg) (slot : Option Bool)
    (raw : String) (ts : Nat)
    (h : pyLower (pyStrip raw) = "exit" ∨ pyLower (pyStrip raw) = "quit" ∨
      pyLower (pyStrip raw) = "bye") :
    (handle_message conv slot raw ts).spawned = false ∧
    (handle_message conv slot raw ts).slot = slot ∧
    (handle_message conv slot raw ts).conv =
      conv ++ [{ role := "user", content := pyStrip raw, timestamp := ts },
               { role := "assistant", content := goodbye_content, timestamp := ts }] ∧
    (handle_message conv slot raw ts).events =
      [Event.messageReceived { role := "user", content := pyStrip raw, timestamp := ts },
       Event.agentResponse { role := "assistant", content := goodbye_content, timestamp := ts }] := by
  have hne : pyStrip raw ≠ "" := by
    intro he
    rw [he] at h
    rcases h with h | h | h <;> exact absurd h (by decide)
  unfold handle_message
  rw [if_neg hne, if_pos h]
  exact ⟨rfl, rfl, by simp, rfl⟩

/-- Witness for C8 at the concrete message `"  Quit  "`. -/
theorem handle_message_sentinel_shortcircuits_witness :
    (handle_message [] none "  Quit  " 1).spawned = false ∧
    (handle_message [] none "  Quit  " 1).slot = none ∧
    (handle_message [] none "  Quit  " 1).conv =
      [] ++ [{ role := "user", content := pyStrip "  Quit  ", timestamp := 1 },
             { role := "assistant", content := goodbye_content, timestamp := 1 }] ∧
    (handle_message [] none "  Quit  " 1).events =
      [Event.messageReceived { role := "user", content := pyStrip "  Quit  ", timestamp := 1 },
       Event.agentResponse { role := "assistant", content := goodbye_content, timestamp := 1 }] :=
  handle_message_sentinel_shortcircuits [] none "  Quit  " 1 (by decide)

/-- C9: `handle_clear_conversation` resets the transcript to exactly one
welcome message, whatever the prior transcript was, and doing it twice in
a row yields a one-welcome-message transcript both times. -/
theorem handle_clear_conversation_idempotent (conv : List Msg) (ts ts2 : Nat) :
    (handle_clear_conversation conv ts).1 =
      [{ role := "assistant", content := welcome_message, timestamp := ts }] ∧
    (handle_clear_conversation conv ts).1.length = 1 ∧
    (handle_clear_conversation (handle_clear_conversation conv ts).1 ts2).1 =
      [{ role := "assistant", content := welcome_message, timestamp := ts2 }] ∧
    (handle_clear_conversation (handle_clear_conversation conv ts).1 ts2).1.length = 1 :=
  ⟨rfl, rfl, rfl, rfl⟩

/-- C10: `StreamingOutputCapture.write` always forwards the text verbatim
to the original stream and returns the text's length, whatever the
cancellation token's state (the token only gates the client-facing
emit). -/
theorem write_forwards_and_returns_length (c : Capture) (text : String) (now : Nat) :
    ((c.write text now).1).original_out = c.original_out ++ text ∧
    (c.write text now).2.2 = text.length := by
  constructor
  · unfold Capture.write Capture.emit_partial_response
    dsimp only
    split_ifs <;> rfl
  · rfl

/-- C4 counterexample: the end-of-generation cleanup deletes the session's
`stop_events` entry even when it holds a different (newer) token — with
token 2 registered and token 1 finishing, the entry becomes `none`, not
`some 2` as compare-and-clear semantics would leave it. -/
theorem cleanup_clobbers_newer_token_cex :
    cleanup_session_tracking (some 2) 1 = none ∧ (none : Option Nat) ≠ some 2 := by
  decide

/-- C4 as amended: the `finally` cleanup of `process_agent_response`
removes the session's registration whenever one is present, without
comparing it to the finishing generation's own token; in particular a
newer generation's registration is deleted by a stale cleanup. -/
theorem cleanup_deletes_any_registration (entry : Option Nat) (own_token : Nat) :
    cleanup_session_tracking entry own_token = none := by
  cases entry <;> rfl

/-- C5 counterexample: with the token signalled and the buffer holding
`"hello"`, `flush` emits nothing — but the buffer still holds `"hello"`
afterwards, not the empty string the claim requires. -/
theorem flush_signalled_keeps_buffer_cex :
    (Capture.flush ⟨"hello", 0, some true, ""⟩).2 = [] ∧
    (Capture.flush ⟨"hello", 0, some true, ""⟩).1.accumulated_output = "hello" ∧
    ("hello" : String) ≠ "" := by
  decide

/-- C5 as amended: when the token is signalled, `flush` emits nothing and
leaves the whole capture state — the buffer included — unchanged; when the
token is unsignalled and the buffer strips non-empty, it emits the
buffered text as exactly one partial-output event and clears the
buffer. -/
theorem flush_suppressed_or_emits (c : Capture) :
    (c.stop_event = some true → Capture.flush c = (c, [])) ∧
    (c.stop_event = some false → pyStrip c.accumulated_output ≠ "" →
      Capture.flush c = ({ c with accumulated_output := "" },
        [Event.agentStreaming c.accumulated_output])) := by
  constructor
  · intro hs
    simp [Capture.flush, Capture.emit_partial_response, hs]
  · intro hs hne
    simp [Capture.flush, Capture.emit_partial_response, hs, hne]

/-- Witness for C5's amended theorem: a signalled flush of `"hello"`
changes nothing, an unsignalled flush of `"hi"` emits it and clears the
buffer. -/
theorem flush_suppressed_or_emits_witness :
    Capture.flush ⟨"hello", 0, some true, ""⟩ = (⟨"hello", 0, some true, ""⟩, []) ∧
    Capture.flush ⟨"hi", 7, some false, "o"⟩ =
      (⟨"", 7, some false, "o"⟩, [Event.agentStreaming "hi"]) :=
  ⟨(flush_suppressed_or_emits _).1 rfl,
   (flush_suppressed_or_emits _).2 rfl (by decide)⟩

/-- C2 counterexample: a tick at which the completion flag is already set
when the loop guard runs exits the loop to the result-returning code
(`finished`) even though the cancellation flag is set and the deadline
(300 s, clock at 1000 s) has long elapsed — not the CANCELLED outcome the
claim requires of that tick. -/
theorem completed_tick_beats_cancel_and_timeout_cex :
    pollLoop 0 300 [⟨true, true, true, 1000, true⟩] = some LoopExit.finished ∧
    LoopExit.finished ≠ LoopExit.stopped ∧
    LoopExit.finished ≠ LoopExit.timedOut 1000 := by
  decide

/-- C2 as amended: within a tick whose body runs (worker thread alive and
completion flag unset at the guard), a set cancellation flag yields the
stopped outcome before the deadline is even consulted — for every clock
value, so cancellation does take priority over timeout; but the loop guard
consults the completion flag before the body, so a completion flag already
set at the start of a tick exits to the result-returning code in
preference to both cancellation and timeout. -/
theorem poll_tick_priority (t : Tick) (rest : List Tick) (start_time timeout : Nat) :
    (t.alive = true → t.completed = false → t.stopSet = true → t.aliveAfterGrace = true →
      pollLoop start_time timeout (t :: rest) = some LoopExit.stopped) ∧
    (t.completed = true →
      pollLoop start_time timeout (t :: rest) = some LoopExit.finished) := by
  constructor
  · intro h1 h2 h3 h4
    simp [pollLoop, h1, h2, h3, h4]
  · intro h
    simp [pollLoop, h]

/-- Witness for C2's amended theorem: a live, uncompleted, cancelled tick
far past the deadline still yields the stopped outcome, and a completed
tick with the cancellation flag set yields the finished outcome. -/
theorem poll_tick_priority_witness :
    pollLoop 0 300 [⟨true, false, true, 10000, true⟩] = some LoopExit.stopped ∧
    pollLoop 0 300 [⟨true, true, true, 10000, true⟩] = some LoopExit.finished :=
  ⟨(poll_tick_priority _ [] 0 300).1 rfl rfl rfl rfl,
   (poll_tick_priority _ [] 0 300).2 rfl⟩

/-- A loop that exits through the deadline check makes `run_with_timeout`
return the interpolated timeout message. -/
theorem run_with_timeout_of_timedOut (start_time timeout : Nat) (ticks : List Tick)
    (slot : AgentSlot) (n : Nat)
    (h : pollLoop start_time timeout ticks = some (LoopExit.timedOut n)) :
    run_with_timeout start_time timeout ticks slot =
      some ("Generation timed out after " ++ toString timeout ++ " seconds.") := by
  unfold run_with_timeout
  rw [h]

/-- On a trace whose every tick observes the worker alive, uncompleted and
uncancelled, the polling loop returns through the deadline check at the
first tick whose clock strictly exceeds the deadline. -/
theorem pollLoop_times_out (ticks : List Tick) :
    ∀ (start_time timeout : Nat),
      (∀ t ∈ ticks, t.alive = true ∧ t.completed = false ∧ t.stopSet = false) →
      (∃ t ∈ ticks, timeout < t.now - start_time) →
      ∃ n, pollLoop start_time timeout ticks = some (LoopExit.timedOut n) ∧
        timeout < n - start_time := by
  induction ticks with
  | nil =>
      intro start_time timeout _ hEx
      simp at hEx
  | cons t rest ih =>
      intro start_time timeout hAll hEx
      obtain ⟨ha, hc, hs⟩ := hAll t (List.mem_cons_self t rest)
      by_cases hto : timeout < t.now - start_time
      · exact ⟨t.now, by simp [pollLoop, ha, hc, hs, hto], hto⟩
      · have hEx' : ∃ u ∈ rest, timeout < u.now - start_time := by
          obtain ⟨u, hu, hlt⟩ := hEx
          rcases List.mem_cons.mp hu with rfl | hu'
          · exact absurd hlt hto
          · exact ⟨u, hu', hlt⟩
        obtain ⟨n, hpoll, hlt⟩ :=
          ih start_time timeout (fun u hu => hAll u (List.mem_cons_of_mem t hu)) hEx'
        exact ⟨n, by simp [pollLoop, ha, hc, hs, hto, hpoll], hlt⟩

/-- C6: a run in which the worker never completes (and its thread stays
alive) and the cancellation flag is never set ends, as soon as a poll's
clock exceeds the deadline, in the timed-out outcome, and the elapsed time
at the poll that returns it is strictly greater — hence at least — the
configured deadline; `run_with_timeout` then returns the timeout
message. -/
theorem never_completing_uncancelled_times_out (start_time timeout : Nat)
    (ticks : List Tick) (slot : AgentSlot)
    (hAll : ∀ t ∈ ticks, t.alive = true ∧ t.completed = false ∧ t.stopSet = false)
    (hEx : ∃ t ∈ ticks, timeout < t.now - start_time) :
    ∃ n, pollLoop start_time timeout ticks = some (LoopExit.timedOut n) ∧
      timeout ≤ n - start_time ∧
      run_with_timeout start_time timeout ticks slot =
        some ("Generation timed out after " ++ toString timeout ++ " seconds.") := by
  obtain ⟨n, hpoll, hlt⟩ := pollLoop_times_out ticks start_time timeout hAll hEx
  exact ⟨n, hpoll, le_of_lt hlt,
    run_with_timeout_of_timedOut start_time timeout ticks slot n hpoll⟩

/-- Witness for C6 at the default 300 s deadline: a single uncancelled,
uncompleted poll at clock 301 returns the timed-out outcome. -/
theorem never_completing_uncancelled_times_out_witness :
    ∃ n, pollLoop 0 default_timeout [⟨true, false, false, 301, true⟩] =
        some (LoopExit.timedOut n) ∧
      default_timeout ≤ n - 0 ∧
      run_with_timeout 0 default_timeout [⟨true, false, false, 301, true⟩]
          ⟨none, none, false⟩ =
        some ("Generation timed out after " ++ toString default_timeout ++ " seconds.") :=
  never_completing_uncancelled_times_out 0 default_timeout
    [⟨true, false, false, 301, true⟩] ⟨none, none, false⟩ (by decide) (by decide)

/-- C1 counterexample: a generation that times out (worker alive,
uncompleted, never cancelled, clock past the 300 s deadline) returns the
timeout string with the stop flag still unset, so the controller takes the
normal completion branch and appends that string to the transcript as an
assistant message — the transcript after the turn is not the transcript
after the user-message append. -/
theorem timed_out_turn_appends_assistant_cex :
    run_with_timeout 0 300 [⟨true, false, false, 301, true⟩] ⟨none, none, false⟩ =
      some "Generation timed out after 300 seconds." ∧
    (process_agent_response
        ⟨false, RunOutcome.ok "Generation timed out after 300 seconds.", false, false,
          false, ⟨"", 0, some false, ""⟩, 2⟩ [⟨"user", "hello", 1⟩]).1 =
      [⟨"user", "hello", 1⟩,
       ⟨"assistant", "Generation timed out after 300 seconds.", 2⟩] ∧
    ([⟨"user", "hello", 1⟩,
      ⟨"assistant", "Generation timed out after 300 seconds.", 2⟩] : List Msg) ≠
      [⟨"user", "hello", 1⟩] := by
  decide

/-- C1 as amended: a generation that ends CANCELLED (the stop flag set at
the pre-start check or at the post-run re-check) appends no assistant
message — the transcript stays exactly what it was after the user-message
append — and a `generation_stopped` client notification is emitted; but a
generation that ends TIMED_OUT leaves the stop flag unset, so its turn
appends the supervisor's timeout string to the transcript as an ordinary
assistant message. -/
theorem cancelled_leaves_no_turn_timed_out_appends (ctx : RunCtx) (conv : List Msg)
    (r : String) :
    (ctx.preStart = true →
      (process_agent_response ctx conv).1 = conv ∧
      (process_agent_response ctx conv).2.any isGenerationStoppedEvent = true) ∧
    (ctx.preStart = false → ctx.run = RunOutcome.ok r → ctx.afterRun = true →
      (process_agent_response ctx conv).1 = conv ∧
      (process_agent_response ctx conv).2.any isGenerationStoppedEvent = true) ∧
    (ctx.preStart = false → ctx.afterRun = false → ctx.beforeAppend = false →
      ctx.run = RunOutcome.ok
        ("Generation timed out after " ++ toString default_timeout ++ " seconds.") →
      (process_agent_response ctx conv).1 =
        conv ++ [⟨"assistant",
          "Generation timed out after " ++ toString default_timeout ++ " seconds.",
          ctx.ts⟩]) := by
  refine ⟨?_, ?_, ?_⟩
  · intro h1
    simp [process_agent_response, h1, isGenerationStoppedEvent]
  · intro h1 h2 h3
    simp [process_agent_response, h1, h2, h3, isGenerationStoppedEvent]
  · intro h1 h2 h3 h4
    simp [process_agent_response, h1, h2, h3, h4]

/-- Witness for C1's amended theorem: a pre-start-cancelled turn leaves
the empty transcript empty, and a timed-out turn appends the timeout
string. -/
theorem cancelled_leaves_no_turn_timed_out_appends_witness :
    (process_agent_response
        ⟨true, RunOutcome.ok "x", false, false, false, ⟨"", 0, some false, ""⟩, 0⟩
        []).1 = ([] : List Msg) ∧
    (process_agent_response
        ⟨false, RunOutcome.ok
            ("Generation timed out after " ++ toString default_timeout ++ " seconds."),
          false, false, false, ⟨"", 0, some false, ""⟩, 2⟩ []).1 =
      [⟨"assistant",
        "Generation timed out after " ++ toString default_timeout ++ " seconds.", 2⟩] :=
  ⟨((cancelled_leaves_no_turn_timed_out_appends _ [] "x").1 rfl).1,
   (cancelled_leaves_no_turn_timed_out_appends _ [] "x").2.2 rfl rfl rfl rfl⟩

/-- C3 counterexample: with no generation in flight (`stop_events` has no
entry for the session), a stop request only emits the no-active-generation
error and registers nothing; the next `handle_message` creates a fresh
unset event (`some false`, not the signalled `some true` the claim
requires), and the generation proceeds normally: one assistant message is
appended and no `generation_stopped` notification is emitted. -/
theorem stop_then_fresh_token_not_cancelled_cex :
    handle_stop_generation none =
      (none, [Event.generationStopError "No active generation to stop."]) ∧
    (handle_message [] none "hello" 1).slot = some false ∧
    (some false : Option Bool) ≠ some true ∧
    (process_agent_response
        ⟨false, RunOutcome.ok "hi", false, false, false, ⟨"", 0, some false, ""⟩, 2⟩
        (handle_message [] none "hello" 1).conv).1 =
      [⟨"user", "hello", 1⟩, ⟨"assistant", "hi", 2⟩] ∧
    (process_agent_response
        ⟨false, RunOutcome.ok "hi", false, false, false, ⟨"", 0, some false, ""⟩, 2⟩
        (handle_message [] none "hello" 1).conv).2.any isGenerationStoppedEvent =
      false := by
  decide

/-- C3 as amended: a stop request for a session with no generation in
flight leaves no registration behind and emits only the
no-active-generation error; the very next non-sentinel generation
registers a fresh unset stop event, so its first poll observes the flag
unset, and (no new stop request arriving) the run proceeds down the
normal path, appending the worker's response to the transcript. -/
theorem stop_without_generation_next_proceeds (conv : List Msg) (raw : String)
    (ts : Nat) (resp : String) (cap : Capture) (ts2 : Nat)
    (hne : pyStrip raw ≠ "")
    (hsent : ¬(pyLower (pyStrip raw) = "exit" ∨ pyLower (pyStrip raw) = "quit" ∨
      pyLower (pyStrip raw) = "bye")) :
    handle_stop_generation none =
      (none, [Event.generationStopError "No active generation to stop."]) ∧
    (handle_message conv none raw ts).slot = some false ∧
    (handle_message conv none raw ts).spawned = true ∧
    (process_agent_response ⟨false, RunOutcome.ok resp, false, false, false, cap, ts2⟩
        (handle_message conv none raw ts).conv).1 =
      conv ++ [⟨"user", pyStrip raw, ts⟩, ⟨"assistant", resp, ts2⟩] := by
  have hm : handle_message conv none raw ts =
      { conv := conv ++ [{ role := "user", content := pyStrip raw, timestamp := ts }],
        slot := some false,
        events := [Event.messageReceived
          { role := "user", content := pyStrip raw, timestamp := ts }],
        spawned := true } := by
    unfold handle_message
    rw [if_neg hne, if_neg hsent]
  refine ⟨rfl, by rw [hm], by rw [hm], ?_⟩
  rw [hm]
  simp [process_agent_response]

/-- Witness for C3's amended theorem at the message `"hello"` and
response `"hi"`. -/
theorem stop_without_generation_next_proceeds_witness :
    handle_stop_generation none =
      (none, [Event.generationStopError "No active generation to stop."]) ∧
    (handle_message [] none "hello" 1).slot = some false ∧
    (handle_message [] none "hello" 1).spawned = true ∧
    (process_agent_response
        ⟨false, RunOutcome.ok "hi", false, false, false, ⟨"", 0, some false, ""⟩, 2⟩
        (handle_message [] none "hello" 1).conv).1 =
      [] ++ [⟨"user", pyStrip "hello", 1⟩, ⟨"assistant", "hi", 2⟩] :=
  stop_without_generation_next_proceeds [] "hello" 1 "hi" ⟨"", 0, some false, ""⟩ 2
    (by decide) (by decide)

/-- C7 counterexample: when the opaque agent call raises `"boom"` and the
stop flag is never set, the supervisor converts it to the string
`"Error: boom"`, the controller appends that string to the transcript —
but emits no chat-style `agent_response` event at all for that turn (the
comment at ui.py line 428 skips it because streaming already showed the
content), contradicting the claim's required chat-style emission. -/
theorem agent_error_no_chat_emit_cex :
    run_with_timeout 0 300 [⟨true, true, false, 1, true⟩]
        (run_in_thread (Except.error "boom") false) = some "Error: boom" ∧
    (process_agent_response
        ⟨false, RunOutcome.ok "Error: boom", false, false, false,
          ⟨"", 0, some false, ""⟩, 3⟩ [⟨"user", "do it", 1⟩]).1 =
      [⟨"user", "do it", 1⟩, ⟨"assistant", "Error: boom", 3⟩] ∧
    (process_agent_response
        ⟨false, RunOutcome.ok "Error: boom", false, false, false,
          ⟨"", 0, some false, ""⟩, 3⟩ [⟨"user", "do it", 1⟩]).2.any
      isAgentResponseEvent = false := by
  decide

/-- C7 as amended: when the opaque agent call raises and the stop flag is
unset, the worker records the error text, the supervisor returns the
string `"Error: "` followed by it (no exception escapes — the outcome is
an ordinary string return), and the controller appends that string to the
transcript as an assistant message; no chat-style `agent_response` event
is emitted for it — the client sees the content only through the
streaming channel. -/
theorem agent_error_appended_not_emitted (e : String) (he : e ≠ "")
    (start_time timeout : Nat) (ticks : List Tick)
    (hfin : pollLoop start_time timeout ticks = some LoopExit.finished)
    (conv : List Msg) (cap : Capture) (ts : Nat) :
    run_with_timeout start_time timeout ticks (run_in_thread (Except.error e) false) =
      some ("Error: " ++ e) ∧
    (process_agent_response
        ⟨false, RunOutcome.ok ("Error: " ++ e), false, false, false, cap, ts⟩ conv).1 =
      conv ++ [⟨"assistant", "Error: " ++ e, ts⟩] ∧
    (process_agent_response
        ⟨false, RunOutcome.ok ("Error: " ++ e), false, false, false, cap, ts⟩
        conv).2.any isAgentResponseEvent = false := by
  refine ⟨?_, ?_, ?_⟩
  · unfold run_with_timeout
    rw [hfin]
    simp [run_in_thread, returnResult, pyTruthy, he]
  · simp [process_agent_response]
  · simp [process_agent_response, isAgentResponseEvent, flush_no_agentResponse cap]

/-- Witness for C7's amended theorem at the error text `"boom"`. -/
theorem agent_error_appended_not_emitted_witness :
    run_with_timeout 0 300 [⟨true, true, false, 1, true⟩]
        (run_in_thread (Except.error "boom") false) = some ("Error: " ++ "boom") ∧
    (process_agent_response
        ⟨false, RunOutcome.ok ("Error: " ++ "boom"), false, false, false,
          ⟨"", 0, some false, ""⟩, 0⟩ []).1 =
      [] ++ [⟨"assistant", "Error: " ++ "boom", 0⟩] ∧
    (process_agent_response
        ⟨false, RunOutcome.ok ("Error: " ++ "boom"), false, false, false,
          ⟨"", 0, some false, ""⟩, 0⟩ []).2.any isAgentResponseEvent = false :=
  agent_error_appended_not_emitted "boom" (by decide) 0 300 [⟨true, true, false, 1, true⟩]
    (by decide) [] ⟨"", 0, some false, ""⟩ 0

end SfcWizard
